import Mathlib

/-!
# dbconnector

A shallow embedding of `config.go` and `db.go`.

* Go strings are `String`; Go `int` is `Int` (no arithmetic is performed on it).
* A Go `error` is `Option String` (`none` is `nil`, `some m` an error whose text is `m`).
* The package-level variables `DB` and `registeredModels` are fields of `State`.
* `viper`, `gorm` and `database/sql` are collaborators outside the repository: the
  configuration store is a `Viper` record of getters, the driver is a `Driver`
  record of functions, and every call made to the driver is recorded in
  `State.trace` together with what it returned.
-/

namespace DBConnector

/-! ## config.go -/

/-- The configuration struct `MysqlConfig` of `config.go`. -/
structure MysqlConfig where
  DataSource : String
  Host : String
  Port : Int
  User : String
  Password : String
  DBName : String
  Charset : String
  ParseTime : Bool
  Loc : String
  deriving DecidableEq, Repr

/-! ## The fragment of `fmt` used by db.go -/

/-- An operand of a formatting call. -/
inductive Arg where
  | str (s : String)
  | int (n : Int)
  | bool (b : Bool)
  deriving DecidableEq, Repr

/-- Decimal digits of an integer, with a leading minus sign when negative (verb `%d`). -/
def decimal (n : Int) : String :=
  if n < 0 then "-" ++ Nat.repr n.natAbs else Nat.repr n.toNat

/-- Text of a boolean (verb `%t`). -/
def boolText (b : Bool) : String :=
  if b then "true" else "false"

/-- Go type name of an operand, used in the bad-verb marker. -/
def Arg.typeName : Arg → String
  | .str _ => "string"
  | .int _ => "int"
  | .bool _ => "bool"

/-- Default rendering of an operand (verb `%v`). -/
def Arg.value : Arg → String
  | .str s => s
  | .int n => decimal n
  | .bool b => boolText b

/-- Rendering of one operand under one verb. Only the verbs that occur in db.go
(`s`, `d`, `t`, `v`) are interpreted; any other pairing yields the marker
`%!verb(type=value)` that `fmt` prints for a wrong operand type. -/
def renderVerb (verb : Char) (a : Arg) : List Char :=
  match verb, a with
  | 'v', a => a.value.data
  | 's', .str s => s.data
  | 'd', .int n => (decimal n).data
  | 't', .bool b => (boolText b).data
  | c, a => ['%', '!', c, '('] ++ a.typeName.data ++ ['='] ++ a.value.data ++ [')']

/-- Marker appended by `fmt` for operands left over after the format is consumed. -/
def extraArgs : List Arg → List Char
  | [] => []
  | a :: as =>
    "%!(EXTRA ".data ++ a.typeName.data ++ ['='] ++ a.value.data
      ++ (as.flatMap fun b => [',', ' '] ++ b.typeName.data ++ ['='] ++ b.value.data) ++ [')']

/-- Interpretation of a format (as characters) against its operands. -/
def sprintfAux : List Char → List Arg → List Char
  | [], args => extraArgs args
  | c :: rest, args =>
    if c = '%' then
      match rest, args with
      | [], _ => "%!(NOVERB)".data
      | v :: rest', [] =>
        if v = '%' then '%' :: sprintfAux rest' []
        else ['%', '!', v] ++ "(MISSING)".data ++ sprintfAux rest' []
      | v :: rest', a :: args' =>
        if v = '%' then '%' :: sprintfAux rest' (a :: args')
        else renderVerb v a ++ sprintfAux rest' args'
    else c :: sprintfAux rest args

/-- The call `fmt.Sprintf(format, args...)`. -/
def Sprintf (format : String) (args : List Arg) : String :=
  String.mk (sprintfAux format.data args)

/-! ## The configuration store -/

/-- The content of the `viper` store as seen through the three getters db.go uses. -/
structure Viper where
  GetString : String → String
  GetInt : String → Int
  GetBool : String → Bool

/-! ## db.go: buildDSNFromViper -/

/-- The function `buildDSNFromViper` of db.go; the result is the Go pair `(dsn, err)`. -/
def buildDSNFromViper (viper : Viper) : String × Option String :=
  let host := viper.GetString "database.host"
  let port := viper.GetInt "database.port"
  let user := viper.GetString "database.user"
  let password := viper.GetString "database.password"
  let dbname := viper.GetString "database.dbname"
  let charset := viper.GetString "database.charset"
  let parseTime := viper.GetBool "database.parseTime"
  let loc := viper.GetString "database.loc"
  if host = "" then ("", some (Sprintf "database.host is empty" []))
  else if user = "" then ("", some (Sprintf "database.user is empty" []))
  else if dbname = "" then ("", some (Sprintf "database.dbname is empty" []))
  else
    let port := if port = 0 then 3306 else port
    let charset := if charset = "" then "utf8mb4" else charset
    let loc := if loc = "" then "Local" else loc
    if password ≠ "" then
      (Sprintf "%s:%s@tcp(%s:%d)/%s?charset=%s&parseTime=%t&loc=%s"
        [.str user, .str password, .str host, .int port, .str dbname, .str charset,
         .bool parseTime, .str loc], none)
    else
      (Sprintf "%s@tcp(%s:%d)/%s?charset=%s&parseTime=%t&loc=%s"
        [.str user, .str host, .int port, .str dbname, .str charset,
         .bool parseTime, .str loc], none)

/-- A store holding the given values under the `database.*` keys and zero values elsewhere. -/
def storeOf (host : String) (port : Int) (user password dbname charset : String)
    (parseTime : Bool) (loc : String) : Viper where
  GetString k :=
    if k = "database.host" then host
    else if k = "database.user" then user
    else if k = "database.password" then password
    else if k = "database.dbname" then dbname
    else if k = "database.charset" then charset
    else if k = "database.loc" then loc
    else ""
  GetInt k := if k = "database.port" then port else 0
  GetBool k := if k = "database.parseTime" then parseTime else false

/-! ## The driver and the package state -/

/-- A connection handle (`*gorm.DB`, non-nil). -/
abbrev Handle := Nat

/-- An underlying pool (`*sql.DB`, non-nil). -/
abbrev Pool := Nat

/-- A registered model (an `interface{}` value). -/
abbrev Model := Nat

/-- What `gorm.Open` returns: on success a handle; on failure an error together
with whatever handle value (possibly nil) accompanies it. -/
inductive OpenResult where
  | ok (db : Handle)
  | fail (db : Option Handle) (err : String)
  deriving DecidableEq, Repr

/-- The handle component of the pair returned by `gorm.Open`. -/
def OpenResult.db? : OpenResult → Option Handle
  | .ok db => some db
  | .fail db _ => db

/-- What `(*gorm.DB).DB()` returns. -/
inductive PoolResult where
  | ok (sqlDB : Pool)
  | fail (err : String)
  deriving DecidableEq, Repr

/-- A call made to the driver or to the logger, with its arguments and result. -/
inductive Event where
  | gormOpen (dsn : String) (result : OpenResult)
  | sqlDB (db : Handle) (result : PoolResult)
  | setMaxIdleConns (sqlDB : Pool) (n : Nat)
  | setMaxOpenConns (sqlDB : Pool) (n : Nat)
  | setConnMaxLifetime (sqlDB : Pool) (nanoseconds : Nat)
  | autoMigrate (db : Option Handle) (models : List Model) (result : Option String)
  | ping (sqlDB : Pool) (result : Option String)
  | log (line : String)
  deriving DecidableEq, Repr

/-- The handle an event delivered to the program, if it is an open call. -/
def Event.opened? : Event → Option Handle
  | .gormOpen _ result => result.db?
  | _ => none

/-- Whether an event is a call of `gorm.Open`. -/
def Event.isOpen : Event → Bool
  | .gormOpen _ _ => true
  | _ => false

/-- Whether an event is a call of the migrator. -/
def Event.isMigrate : Event → Bool
  | .autoMigrate _ _ _ => true
  | _ => false

/-- The driver: each function sees the history of calls so far, so its answers may
change over time. `autoMigrate` receives the receiver `DB` as it is, nil included. -/
structure Driver where
  gormOpen : List Event → String → OpenResult
  sqlDB : List Event → Handle → PoolResult
  ping : List Event → Pool → Option String
  autoMigrate : List Event → Option Handle → List Model → Option String

/-- The package-level variables of db.go, with the history of external calls. -/
structure State where
  DB : Option Handle
  registeredModels : List Model
  trace : List Event
  deriving DecidableEq, Repr

/-- The state at program start: `DB` is nil, no model is registered. -/
def State.initial : State :=
  { DB := none, registeredModels := [], trace := [] }

/-- Record events at the end of the history. -/
def State.emit (s : State) (es : List Event) : State :=
  { s with trace := s.trace ++ es }

/-- The constant `time.Hour`, in nanoseconds. -/
def timeHour : Nat := 3600000000000

/-! ## db.go: the operations -/

/-- The function `RegisterModels` of db.go. -/
def RegisterModels (models : List Model) (s : State) : State :=
  { s with registeredModels := s.registeredModels ++ models }

/-- The function `autoMigrate` of db.go. -/
def autoMigrate (drv : Driver) (s : State) : State × Option String :=
  if s.registeredModels.length > 0 then
    let err := drv.autoMigrate s.trace s.DB s.registeredModels
    let s1 := s.emit [.autoMigrate s.DB s.registeredModels err]
    match err with
    | some e => (s1, some e)
    | none =>
      (s1.emit [.log (Sprintf "自动迁移完成，共迁移 %d 个模型"
        [.int s.registeredModels.length])], none)
  else (s, none)

/-- The function `initDBWithDSN` of db.go. The pair returned by `gorm.Open` is
assigned to `DB, err` before `err` is examined. -/
def initDBWithDSN (drv : Driver) (dsn : String) (s : State) : State × Option String :=
  let r := drv.gormOpen s.trace dsn
  let s1 := { s with DB := r.db?, trace := s.trace ++ [.gormOpen dsn r] }
  match r with
  | .fail _ err => (s1, some (Sprintf "连接MySQL数据库失败: %v" [.str err]))
  | .ok db =>
    let pr := drv.sqlDB s1.trace db
    let s2 := s1.emit [.sqlDB db pr]
    match pr with
    | .fail err => (s2, some (Sprintf "获取底层sql.DB失败: %v" [.str err]))
    | .ok sqlDB =>
      let s3 := s2.emit [.setMaxIdleConns sqlDB 10, .setMaxOpenConns sqlDB 100,
        .setConnMaxLifetime sqlDB (1 * timeHour)]
      match autoMigrate drv s3 with
      | (s4, some err) => (s4, some (Sprintf "自动迁移数据库表失败: %v" [.str err]))
      | (s4, none) => (s4.emit [.log "数据库连接成功"], none)

/-- The function `InitDB` of db.go; `none` is the nil pointer. -/
def InitDB (drv : Driver) (config : Option MysqlConfig) (s : State) : State × Option String :=
  match config with
  | none => (s, some (Sprintf "MysqlConfig is nil" []))
  | some config =>
    if config.DataSource = "" then (s, some (Sprintf "DataSource is empty" []))
    else initDBWithDSN drv config.DataSource s

/-- The function `InitDBWithDSN` of db.go. -/
def InitDBWithDSN (drv : Driver) (dsn : String) (s : State) : State × Option String :=
  if dsn = "" then (s, some (Sprintf "DSN is empty" []))
  else initDBWithDSN drv dsn s

/-- The function `InitDBWithViper` of db.go. -/
def InitDBWithViper (drv : Driver) (viper : Viper) (s : State) : State × Option String :=
  match buildDSNFromViper viper with
  | (_, some err) => (s, some (Sprintf "构建DSN失败: %v" [.str err]))
  | (dsn, none) => initDBWithDSN drv dsn s

/-- How a call of `GetDB` ends: `log.Fatalf` prints and terminates the process,
otherwise a handle is returned. -/
inductive GetDBResult where
  | fatal (line : String)
  | handle (db : Handle)
  deriving DecidableEq, Repr

/-- The function `GetDB` of db.go. -/
def GetDB (drv : Driver) (s : State) : State × GetDBResult :=
  match s.DB with
  | none => (s, .fatal (Sprintf "数据库未初始化，请先调用InitDB或相关初始化函数" []))
  | some db =>
    let pr := drv.sqlDB s.trace db
    let s1 := s.emit [.sqlDB db pr]
    match pr with
    | .fail err => (s1, .fatal (Sprintf "获取底层sql.DB失败: %v" [.str err]))
    | .ok sqlDB =>
      let err := drv.ping s1.trace sqlDB
      let s2 := s1.emit [.ping sqlDB err]
      match err with
      | some e => (s2, .fatal (Sprintf "数据库连接已断开: %v" [.str e]))
      | none => (s2, .handle db)

/-! ## Sequences of calls -/

/-- A call of one of the exported operations that change the package state. -/
inductive Call where
  | register (models : List Model)
  | fromConfig (config : Option MysqlConfig)
  | fromDSN (dsn : String)
  | fromViper (viper : Viper)

/-- Perform one call: the state after it and whether it returned success
(`RegisterModels` returns nothing, so it never counts as a success). -/
def Call.run (drv : Driver) : Call → State → State × Bool
  | .register models, s => (RegisterModels models s, false)
  | .fromConfig config, s => ((InitDB drv config s).1, (InitDB drv config s).2.isNone)
  | .fromDSN dsn, s => ((InitDBWithDSN drv dsn s).1, (InitDBWithDSN drv dsn s).2.isNone)
  | .fromViper viper, s =>
    ((InitDBWithViper drv viper s).1, (InitDBWithViper drv viper s).2.isNone)

/-- Perform calls in order: the final state and whether any call returned success. -/
def runCalls (drv : Driver) : List Call → State → State × Bool
  | [], s => (s, false)
  | c :: cs, s =>
    ((runCalls drv cs (c.run drv s).1).1, (c.run drv s).2 || (runCalls drv cs (c.run drv s).1).2)

/-- An initialisation call was rejected at validation: it returned an error and
made no call to the driver, so it never reached the opening routine. -/
abbrev RejectedAtValidation (before : State) (r : State × Option String) : Prop :=
  r.2 ≠ none ∧ r.1.trace = before.trace

/-! ## Concrete inputs -/

/-- A driver for which every call succeeds. -/
def okDriver : Driver where
  gormOpen _ _ := .ok 7
  sqlDB _ _ := .ok 3
  ping _ _ := none
  autoMigrate _ _ _ := none

/-- A driver that connects, but whose migrator fails. -/
def migrateFailDriver : Driver where
  gormOpen _ _ := .ok 7
  sqlDB _ _ := .ok 3
  ping _ _ := none
  autoMigrate _ _ _ := some "Error 1050"

/-- A driver whose open call fails and hands back no handle. -/
def downDriver : Driver where
  gormOpen _ _ := .fail none "dial tcp: connection refused"
  sqlDB _ _ := .fail "sql: database is closed"
  ping _ _ := some "driver: bad connection"
  autoMigrate _ _ _ := some "driver: bad connection"

/-- The part of a string that precedes its first `@` character. -/
def beforeFirstAt (dsn : String) : List Char :=
  dsn.data.takeWhile fun c => c != '@'

/-! ## Lemmas on formatting and on the descriptor -/

theorem Sprintf_build_error (e : String) :
    Sprintf "构建DSN失败: %v" [.str e] = "构建DSN失败: " ++ e := by
  simp [Sprintf, sprintfAux, extraArgs, renderVerb, Arg.value, String.ext_iff]

theorem buildDSNFromViper_ok (viper : Viper)
    (hhost : viper.GetString "database.host" ≠ "")
    (huser : viper.GetString "database.user" ≠ "")
    (hdbname : viper.GetString "database.dbname" ≠ "") :
    buildDSNFromViper viper =
      (viper.GetString "database.user"
        ++ (if viper.GetString "database.password" ≠ "" then
              ":" ++ viper.GetString "database.password" else "")
        ++ "@tcp(" ++ viper.GetString "database.host" ++ ":"
        ++ decimal (if viper.GetInt "database.port" = 0 then 3306
              else viper.GetInt "database.port")
        ++ ")/" ++ viper.GetString "database.dbname" ++ "?charset="
        ++ (if viper.GetString "database.charset" = "" then "utf8mb4"
              else viper.GetString "database.charset")
        ++ "&parseTime=" ++ (if viper.GetBool "database.parseTime" then "true" else "false")
        ++ "&loc=" ++ (if viper.GetString "database.loc" = "" then "Local"
              else viper.GetString "database.loc"), none) := by
  unfold buildDSNFromViper
  simp only [hhost, huser, hdbname, if_false]
  by_cases hp : viper.GetString "database.password" = ""
  · simp [hp, Sprintf, sprintfAux, extraArgs, renderVerb, Arg.value, boolText, String.ext_iff]
  · simp [hp, Sprintf, sprintfAux, extraArgs, renderVerb, Arg.value, boolText, String.ext_iff]

theorem takeWhile_before_at (l r : List Char) (h : ':' ∉ l) :
    ':' ∉ (l ++ '@' :: r).takeWhile fun c => c != '@' := by
  induction l with
  | nil => simp [List.takeWhile]
  | cons a l ih =>
    have ha : ':' ≠ a := fun e => h (e ▸ List.mem_cons_self _ _)
    have hl : ':' ∉ l := fun m => h (List.mem_cons_of_mem _ m)
    by_cases hat : a = '@'
    · simp [List.takeWhile, hat]
    · have hne : (a != '@') = true := by simp [hat]
      rw [List.cons_append, List.takeWhile_cons, hne]
      simp only [if_true, List.mem_cons, not_or]
      exact ⟨ha, ih hl⟩

/-! ## Lemmas on the operations -/

theorem autoMigrate_DB (drv : Driver) (s : State) : (autoMigrate drv s).1.DB = s.DB := by
  unfold autoMigrate
  split
  · cases drv.autoMigrate s.trace s.DB s.registeredModels <;> rfl
  · rfl

theorem autoMigrate_models (drv : Driver) (s : State) :
    (autoMigrate drv s).1.registeredModels = s.registeredModels := by
  unfold autoMigrate
  split
  · cases drv.autoMigrate s.trace s.DB s.registeredModels <;> rfl
  · rfl

theorem autoMigrate_trace (drv : Driver) (s : State) :
    s.trace <+: (autoMigrate drv s).1.trace := by
  unfold autoMigrate
  split
  · cases drv.autoMigrate s.trace s.DB s.registeredModels <;> simp [State.emit]
  · simp

theorem autoMigrate_opens (drv : Driver) (s : State) :
    (autoMigrate drv s).1.trace.filter Event.isOpen = s.trace.filter Event.isOpen := by
  unfold autoMigrate
  split
  · cases drv.autoMigrate s.trace s.DB s.registeredModels <;>
      simp [State.emit, List.filter_append, Event.isOpen]
  · rfl

theorem initDBWithDSN_DB (drv : Driver) (dsn : String) (s : State) :
    (initDBWithDSN drv dsn s).1.DB = (drv.gormOpen s.trace dsn).db? := by
  unfold initDBWithDSN
  cases h : drv.gormOpen s.trace dsn with
  | fail db err => rfl
  | ok db =>
    simp only []
    split
    · rfl
    · split
      · rename_i s4 err heq
        have h4 := congrArg (fun r => r.1.DB) heq
        simp only [autoMigrate_DB] at h4
        simpa [State.emit] using h4.symm
      · rename_i s4 heq
        have h4 := congrArg (fun r => r.1.DB) heq
        simp only [autoMigrate_DB] at h4
        simpa [State.emit] using h4.symm

theorem initDBWithDSN_models (drv : Driver) (dsn : String) (s : State) :
    (initDBWithDSN drv dsn s).1.registeredModels = s.registeredModels := by
  unfold initDBWithDSN
  cases h : drv.gormOpen s.trace dsn with
  | fail db err => rfl
  | ok db =>
    simp only []
    split
    · rfl
    · split
      · rename_i s4 err heq
        have h4 := congrArg (fun r => r.1.registeredModels) heq
        simp only [autoMigrate_models] at h4
        simpa [State.emit] using h4.symm
      · rename_i s4 heq
        have h4 := congrArg (fun r => r.1.registeredModels) heq
        simp only [autoMigrate_models] at h4
        simpa [State.emit] using h4.symm

theorem initDBWithDSN_trace (drv : Driver) (dsn : String) (s : State) :
    s.trace ++ [Event.gormOpen dsn (drv.gormOpen s.trace dsn)]
      <+: (initDBWithDSN drv dsn s).1.trace := by
  unfold initDBWithDSN
  cases h : drv.gormOpen s.trace dsn with
  | fail db err => exact List.prefix_refl _
  | ok db =>
    simp only []
    split
    · simp [State.emit]
    · split
      · rename_i s4 err heq
        have h4 := congrArg (fun r => r.1.trace) heq
        simp only at h4
        rw [← h4]
        refine List.IsPrefix.trans ?_ (autoMigrate_trace drv _)
        simp [State.emit]
      · rename_i s4 heq
        have h4 := congrArg (fun r => r.1.trace) heq
        simp only at h4
        simp only [State.emit, ← h4]
        refine List.IsPrefix.trans ?_ ((autoMigrate_trace drv _).trans (List.prefix_append _ _))
        simp [State.emit]

theorem initDBWithDSN_opens (drv : Driver) (dsn : String) (s : State) :
    (initDBWithDSN drv dsn s).1.trace.filter Event.isOpen
      = s.trace.filter Event.isOpen ++ [Event.gormOpen dsn (drv.gormOpen s.trace dsn)] := by
  unfold initDBWithDSN
  cases h : drv.gormOpen s.trace dsn with
  | fail db err => simp [List.filter_append, Event.isOpen]
  | ok db =>
    simp only []
    split
    · simp [State.emit, List.filter_append, Event.isOpen]
    · split
      · rename_i s4 err heq
        have h4 := congrArg (fun r => r.1.trace.filter Event.isOpen) heq
        simp only [autoMigrate_opens] at h4
        rw [← h4]
        simp [State.emit, List.filter_append, Event.isOpen]
      · rename_i s4 heq
        have h4 := congrArg (fun r => r.1.trace.filter Event.isOpen) heq
        simp only [autoMigrate_opens] at h4
        simp only [State.emit, List.filter_append, ← h4]
        simp [State.emit, List.filter_append, Event.isOpen]

theorem initDBWithDSN_DB_none (drv : Driver) (dsn : String) (s : State)
    (h : ∀ e ∈ (initDBWithDSN drv dsn s).1.trace, e.opened? = none) :
    (initDBWithDSN drv dsn s).1.DB = none := by
  rw [initDBWithDSN_DB]
  have hmem : Event.gormOpen dsn (drv.gormOpen s.trace dsn)
      ∈ s.trace ++ [Event.gormOpen dsn (drv.gormOpen s.trace dsn)] := by simp
  exact h _ ((initDBWithDSN_trace drv dsn s).subset hmem)

theorem GetDB_nil (drv : Driver) (s : State) (h : s.DB = none) :
    GetDB drv s = (s, .fatal "数据库未初始化，请先调用InitDB或相关初始化函数") := by
  unfold GetDB
  rw [h]
  simp only []
  congr 2

theorem Call.run_cases (drv : Driver) (c : Call) (s : State) :
    (∃ models, (c.run drv s).1 = RegisterModels models s) ∨ (c.run drv s).1 = s
      ∨ ∃ dsn, (c.run drv s).1 = (initDBWithDSN drv dsn s).1 := by
  cases c with
  | register models => exact Or.inl ⟨models, rfl⟩
  | fromConfig config =>
    cases config with
    | none => exact Or.inr (Or.inl rfl)
    | some config =>
      by_cases h : config.DataSource = ""
      · exact Or.inr (Or.inl (by simp [Call.run, InitDB, h]))
      · exact Or.inr (Or.inr ⟨config.DataSource, by simp [Call.run, InitDB, h]⟩)
  | fromDSN dsn =>
    by_cases h : dsn = ""
    · exact Or.inr (Or.inl (by simp [Call.run, InitDBWithDSN, h]))
    · exact Or.inr (Or.inr ⟨dsn, by simp [Call.run, InitDBWithDSN, h]⟩)
  | fromViper viper =>
    cases h : buildDSNFromViper viper with
    | mk dsn err =>
      cases err with
      | none => exact Or.inr (Or.inr ⟨dsn, by simp [Call.run, InitDBWithViper, h]⟩)
      | some e => exact Or.inr (Or.inl (by simp [Call.run, InitDBWithViper, h]))

theorem Call.run_trace (drv : Driver) (c : Call) (s : State) :
    s.trace <+: (c.run drv s).1.trace := by
  rcases Call.run_cases drv c s with ⟨models, h⟩ | h | ⟨dsn, h⟩
  · rw [h]; exact List.prefix_refl _
  · rw [h]
  · rw [h]; exact (List.prefix_append _ _).trans (initDBWithDSN_trace drv dsn s)

theorem Call.run_DB_none (drv : Driver) (c : Call) (s : State) (hs : s.DB = none)
    (h : ∀ e ∈ (c.run drv s).1.trace, e.opened? = none) : (c.run drv s).1.DB = none := by
  rcases Call.run_cases drv c s with ⟨models, hc⟩ | hc | ⟨dsn, hc⟩
  · rw [hc]; exact hs
  · rw [hc]; exact hs
  · rw [hc] at h ⊢; exact initDBWithDSN_DB_none drv dsn s h

theorem runCalls_trace (drv : Driver) (calls : List Call) (s : State) :
    s.trace <+: (runCalls drv calls s).1.trace := by
  induction calls generalizing s with
  | nil => exact List.prefix_refl _
  | cons c cs ih => exact (Call.run_trace drv c s).trans (ih _)

theorem runCalls_DB_none (drv : Driver) (calls : List Call) (s : State) (hs : s.DB = none)
    (h : ∀ e ∈ (runCalls drv calls s).1.trace, e.opened? = none) :
    (runCalls drv calls s).1.DB = none := by
  induction calls generalizing s with
  | nil => exact hs
  | cons c cs ih =>
    have hc : (c.run drv s).1.DB = none :=
      Call.run_DB_none drv c s hs fun e he => h e ((runCalls_trace drv cs _).subset he)
    exact ih _ hc h

theorem initDBWithDSN_success (drv : Driver) (dsn : String) (s : State)
    (h : (initDBWithDSN drv dsn s).2 = none) : ∃ db, drv.gormOpen s.trace dsn = .ok db := by
  unfold initDBWithDSN at h
  cases ho : drv.gormOpen s.trace dsn with
  | fail db err => simp [ho] at h
  | ok db => exact ⟨db, rfl⟩

theorem initDBWithDSN_fails (drv : Driver) (dsn : String) (s : State)
    (h : ∀ e ∈ (initDBWithDSN drv dsn s).1.trace, e.opened? = none) :
    (initDBWithDSN drv dsn s).2.isNone = false := by
  cases hr : (initDBWithDSN drv dsn s).2 with
  | some e => rfl
  | none =>
    obtain ⟨db, hdb⟩ := initDBWithDSN_success drv dsn s hr
    have hnone := initDBWithDSN_DB_none drv dsn s h
    rw [initDBWithDSN_DB, hdb] at hnone
    simp [OpenResult.db?] at hnone

theorem Call.run_fails (drv : Driver) (c : Call) (s : State)
    (h : ∀ e ∈ (c.run drv s).1.trace, e.opened? = none) : (c.run drv s).2 = false := by
  cases c with
  | register models => rfl
  | fromConfig config =>
    cases config with
    | none => rfl
    | some config =>
      by_cases hd : config.DataSource = ""
      · simp [Call.run, InitDB, hd]
      · have he : InitDB drv (some config) s = initDBWithDSN drv config.DataSource s := by
          simp [InitDB, hd]
        simp only [Call.run, he] at h ⊢
        exact initDBWithDSN_fails drv _ s h
  | fromDSN dsn =>
    by_cases hd : dsn = ""
    · simp [Call.run, InitDBWithDSN, hd]
    · have he : InitDBWithDSN drv dsn s = initDBWithDSN drv dsn s := by
        simp [InitDBWithDSN, hd]
      simp only [Call.run, he] at h ⊢
      exact initDBWithDSN_fails drv _ s h
  | fromViper viper =>
    cases hb : buildDSNFromViper viper with
    | mk dsn err =>
      cases err with
      | some e => simp [Call.run, InitDBWithViper, hb]
      | none =>
        have he : InitDBWithViper drv viper s = initDBWithDSN drv dsn s := by
          simp [InitDBWithViper, hb]
        simp only [Call.run, he] at h ⊢
        exact initDBWithDSN_fails drv _ s h

theorem runCalls_fails (drv : Driver) (calls : List Call) (s : State)
    (h : ∀ e ∈ (runCalls drv calls s).1.trace, e.opened? = none) :
    (runCalls drv calls s).2 = false := by
  induction calls generalizing s with
  | nil => rfl
  | cons c cs ih =>
    have hc : (c.run drv s).2 = false :=
      Call.run_fails drv c s fun e he => h e ((runCalls_trace drv cs _).subset he)
    simp only [runCalls, hc, Bool.false_or]
    exact ih _ h

theorem GetDB_handle (drv : Driver) (s : State) (db : Handle)
    (h : (GetDB drv s).2 = .handle db) :
    s.DB = some db ∧ ∃ sqlDB, drv.sqlDB s.trace db = .ok sqlDB
      ∧ drv.ping (s.trace ++ [.sqlDB db (.ok sqlDB)]) sqlDB = none := by
  unfold GetDB at h
  cases hdb : s.DB with
  | none => rw [hdb] at h; simp at h
  | some d =>
    rw [hdb] at h
    cases hp : drv.sqlDB s.trace d with
    | fail err => simp [hp] at h
    | ok sqlDB =>
      cases hg : drv.ping (s.trace ++ [.sqlDB d (.ok sqlDB)]) sqlDB with
      | some e => simp [hp, hg, State.emit] at h
      | none =>
        simp [hp, hg, State.emit] at h
        subst h
        exact ⟨rfl, sqlDB, hp, hg⟩

/-! ## Theorems -/

/-- C1: when `database.host`, `database.user` and `database.dbname` are non-empty,
`buildDSNFromViper` returns no error and exactly
`user[:password]@tcp(host:port)/dbname?charset=..&parseTime=..&loc=..`, with port 0
replaced by 3306, an empty charset by `utf8mb4` and an empty loc by `Local`. -/
theorem buildDSNFromViper_descriptor (viper : Viper)
    (hhost : viper.GetString "database.host" ≠ "")
    (huser : viper.GetString "database.user" ≠ "")
    (hdbname : viper.GetString "database.dbname" ≠ "") :
    buildDSNFromViper viper =
      (viper.GetString "database.user"
        ++ (if viper.GetString "database.password" ≠ "" then
              ":" ++ viper.GetString "database.password" else "")
        ++ "@tcp(" ++ viper.GetString "database.host" ++ ":"
        ++ decimal (if viper.GetInt "database.port" = 0 then 3306
              else viper.GetInt "database.port")
        ++ ")/" ++ viper.GetString "database.dbname" ++ "?charset="
        ++ (if viper.GetString "database.charset" = "" then "utf8mb4"
              else viper.GetString "database.charset")
        ++ "&parseTime=" ++ (if viper.GetBool "database.parseTime" then "true" else "false")
        ++ "&loc=" ++ (if viper.GetString "database.loc" = "" then "Local"
              else viper.GetString "database.loc"), none) :=
  buildDSNFromViper_ok viper hhost huser hdbname

/-- C1 at the spec's end-to-end input: host `localhost`, port 0, user `root`, no
password, dbname `app`, no charset, parseTime true, no loc. -/
theorem buildDSNFromViper_descriptor_witness :
    (storeOf "localhost" 0 "root" "" "app" "" true "").GetString "database.host" ≠ ""
    ∧ (storeOf "localhost" 0 "root" "" "app" "" true "").GetString "database.user" ≠ ""
    ∧ (storeOf "localhost" 0 "root" "" "app" "" true "").GetString "database.dbname" ≠ ""
    ∧ buildDSNFromViper (storeOf "localhost" 0 "root" "" "app" "" true "")
        = ("root@tcp(localhost:3306)/app?charset=utf8mb4&parseTime=true&loc=Local", none) :=
  ⟨by decide, by decide, by decide,
    (buildDSNFromViper_descriptor (storeOf "localhost" 0 "root" "" "app" "" true "")
      (by decide) (by decide) (by decide)).trans (by decide)⟩

/-- C2: `buildDSNFromViper` returns an error exactly when host, user or dbname is
empty; with an error the descriptor is the empty string; and whether an error is
returned depends on no other key. -/
theorem buildDSNFromViper_error_iff (viper : Viper) :
    ((buildDSNFromViper viper).2 ≠ none ↔
      (viper.GetString "database.host" = "" ∨ viper.GetString "database.user" = ""
        ∨ viper.GetString "database.dbname" = ""))
    ∧ ((buildDSNFromViper viper).2 ≠ none → (buildDSNFromViper viper).1 = "")
    ∧ ∀ other : Viper,
        other.GetString "database.host" = viper.GetString "database.host" →
        other.GetString "database.user" = viper.GetString "database.user" →
        other.GetString "database.dbname" = viper.GetString "database.dbname" →
        ((buildDSNFromViper other).2 ≠ none ↔ (buildDSNFromViper viper).2 ≠ none) := by
  have key : ∀ v : Viper, ((buildDSNFromViper v).2 ≠ none ↔
      (v.GetString "database.host" = "" ∨ v.GetString "database.user" = ""
        ∨ v.GetString "database.dbname" = "")) := by
    intro v
    unfold buildDSNFromViper
    by_cases h1 : v.GetString "database.host" = ""
    · simp [h1]
    · by_cases h2 : v.GetString "database.user" = ""
      · simp [h1, h2]
      · by_cases h3 : v.GetString "database.dbname" = ""
        · simp [h1, h2, h3]
        · by_cases h4 : v.GetString "database.password" = "" <;> simp [h1, h2, h3, h4]
  refine ⟨key viper, ?_, ?_⟩
  · unfold buildDSNFromViper
    by_cases h1 : viper.GetString "database.host" = ""
    · simp [h1]
    · by_cases h2 : viper.GetString "database.user" = ""
      · simp [h1, h2]
      · by_cases h3 : viper.GetString "database.dbname" = ""
        · simp [h1, h2, h3]
        · by_cases h4 : viper.GetString "database.password" = "" <;> simp [h1, h2, h3, h4]
  · intro other e1 e2 e3
    rw [key other, key viper, e1, e2, e3]

/-- C6 as stated fails: with user `a:b` and no password the descriptor is
`a:b@tcp(h:3306)/d?...`, whose part before the first `@` contains `:`. -/
theorem buildDSNFromViper_separator_counterexample :
    (storeOf "h" 0 "a:b" "" "d" "" false "").GetString "database.host" ≠ ""
    ∧ (storeOf "h" 0 "a:b" "" "d" "" false "").GetString "database.user" ≠ ""
    ∧ (storeOf "h" 0 "a:b" "" "d" "" false "").GetString "database.dbname" ≠ ""
    ∧ (storeOf "h" 0 "a:b" "" "d" "" false "").GetString "database.password" = ""
    ∧ buildDSNFromViper (storeOf "h" 0 "a:b" "" "d" "" false "")
        = ("a:b@tcp(h:3306)/d?charset=utf8mb4&parseTime=false&loc=Local", none)
    ∧ ':' ∈ beforeFirstAt (buildDSNFromViper (storeOf "h" 0 "a:b" "" "d" "" false "")).1 := by
  decide

/-- C6 amended: with non-empty host, user and dbname, an empty password and a user
that itself contains no `:`, the descriptor has no `:` before its first `@`. -/
theorem buildDSNFromViper_no_separator (viper : Viper)
    (hhost : viper.GetString "database.host" ≠ "")
    (huser : viper.GetString "database.user" ≠ "")
    (hdbname : viper.GetString "database.dbname" ≠ "")
    (hpassword : viper.GetString "database.password" = "")
    (hcolon : ':' ∉ (viper.GetString "database.user").data) :
    ':' ∉ beforeFirstAt (buildDSNFromViper viper).1 := by
  rw [buildDSNFromViper_ok viper hhost huser hdbname]
  simp only [beforeFirstAt, hpassword, ne_eq, not_true_eq_false, if_false, String.append_empty,
    String.data_append, List.append_assoc]
  exact takeWhile_before_at _ _ hcolon

/-- C6 amended, at user `root`, host `localhost`, dbname `app`, no password. -/
theorem buildDSNFromViper_no_separator_witness :
    ':' ∉ beforeFirstAt (buildDSNFromViper (storeOf "localhost" 0 "root" "" "app" "" true "")).1 :=
  buildDSNFromViper_no_separator (storeOf "localhost" 0 "root" "" "app" "" true "")
    (by decide) (by decide) (by decide) (by decide) (by decide)

/-- C7: `RegisterModels` appends: two calls equal one call with the concatenated
arguments, the result is the prior list followed by the arguments in order, the
prior list is a prefix of the result, and a call without arguments changes nothing. -/
theorem RegisterModels_append (s : State) (A B : List Model) :
    RegisterModels B (RegisterModels A s) = RegisterModels (A ++ B) s
    ∧ (RegisterModels B (RegisterModels A s)).registeredModels = s.registeredModels ++ A ++ B
    ∧ s.registeredModels <+: (RegisterModels A s).registeredModels
    ∧ (RegisterModels A s).DB = s.DB
    ∧ RegisterModels [] s = s := by
  refine ⟨?_, ?_, ?_, rfl, ?_⟩
  · simp [RegisterModels]
  · simp [RegisterModels]
  · exact List.prefix_append _ _
  · simp [RegisterModels]

/-- C3: for a non-nil configuration with a non-empty `DataSource`, `InitDB` is
`initDBWithDSN` applied to `DataSource` itself, the one open call it makes carries
`DataSource`, and any configuration with the same `DataSource` gives the same result
whatever its other fields hold. -/
theorem InitDB_uses_DataSource (drv : Driver) (config : MysqlConfig) (s : State)
    (h : config.DataSource ≠ "") :
    InitDB drv (some config) s = initDBWithDSN drv config.DataSource s
    ∧ (InitDB drv (some config) s).1.trace.filter Event.isOpen
        = s.trace.filter Event.isOpen
          ++ [Event.gormOpen config.DataSource (drv.gormOpen s.trace config.DataSource)]
    ∧ ∀ other : MysqlConfig, other.DataSource = config.DataSource →
        InitDB drv (some other) s = InitDB drv (some config) s := by
  have key : ∀ c : MysqlConfig, c.DataSource ≠ "" →
      InitDB drv (some c) s = initDBWithDSN drv c.DataSource s := by
    intro c hc
    simp [InitDB, hc]
  refine ⟨key config h, ?_, ?_⟩
  · rw [key config h]
    exact initDBWithDSN_opens drv config.DataSource s
  · intro other ho
    rw [key config h, key other (ho ▸ h), ho]

/-- C3 at two configurations sharing the `DataSource` `root@tcp(db:3306)/app` and
differing in every other field. -/
theorem InitDB_uses_DataSource_witness :
    InitDB okDriver (some ⟨"root@tcp(db:3306)/app", "", 0, "", "", "", "", false, ""⟩)
        State.initial
      = initDBWithDSN okDriver "root@tcp(db:3306)/app" State.initial
    ∧ InitDB okDriver (some ⟨"root@tcp(db:3306)/app", "h", 1, "u", "p", "d", "c", true, "l"⟩)
        State.initial
      = InitDB okDriver (some ⟨"root@tcp(db:3306)/app", "", 0, "", "", "", "", false, ""⟩)
        State.initial :=
  ⟨(InitDB_uses_DataSource okDriver ⟨"root@tcp(db:3306)/app", "", 0, "", "", "", "", false, ""⟩
      State.initial (by decide)).1,
    (InitDB_uses_DataSource okDriver ⟨"root@tcp(db:3306)/app", "", 0, "", "", "", "", false, ""⟩
      State.initial (by decide)).2.2
      ⟨"root@tcp(db:3306)/app", "h", 1, "u", "p", "d", "c", true, "l"⟩ rfl⟩

/-- C4 as stated fails: with a handle already stored and one model registered, a
call whose open succeeds and whose migration fails returns an error and leaves the
newly opened handle in `DB`; a call whose open fails with no handle leaves `DB` nil. -/
theorem initDBWithDSN_error_replaces_handle :
    (initDBWithDSN migrateFailDriver "root@tcp(db:3306)/app"
        { DB := some 1, registeredModels := [5], trace := [] }).2
      = some "自动迁移数据库表失败: Error 1050"
    ∧ (initDBWithDSN migrateFailDriver "root@tcp(db:3306)/app"
        { DB := some 1, registeredModels := [5], trace := [] }).1.DB = some 7
    ∧ (initDBWithDSN downDriver "root@tcp(db:3306)/app"
        { DB := some 1, registeredModels := [5], trace := [] }).2
      = some "连接MySQL数据库失败: dial tcp: connection refused"
    ∧ (initDBWithDSN downDriver "root@tcp(db:3306)/app"
        { DB := some 1, registeredModels := [5], trace := [] }).1.DB = none := by
  decide

/-- C4 amended: after `initDBWithDSN` the handle `DB` is the handle value returned by
the open call, whether or not an error is returned; the registered-model list is
unchanged; and success is returned exactly when the open call, the pool access and
the migration (run when a model is registered) all succeed. -/
theorem initDBWithDSN_handle (drv : Driver) (dsn : String) (s : State) :
    (initDBWithDSN drv dsn s).1.DB = (drv.gormOpen s.trace dsn).db?
    ∧ (initDBWithDSN drv dsn s).1.registeredModels = s.registeredModels
    ∧ ((initDBWithDSN drv dsn s).2 = none ↔
        ∃ db sqlDB, drv.gormOpen s.trace dsn = .ok db
          ∧ drv.sqlDB (s.trace ++ [.gormOpen dsn (.ok db)]) db = .ok sqlDB
          ∧ (s.registeredModels = [] ∨
              drv.autoMigrate
                (s.trace ++ [.gormOpen dsn (.ok db), .sqlDB db (.ok sqlDB),
                  .setMaxIdleConns sqlDB 10, .setMaxOpenConns sqlDB 100,
                  .setConnMaxLifetime sqlDB timeHour])
                (some db) s.registeredModels = none)) := by
  refine ⟨initDBWithDSN_DB drv dsn s, initDBWithDSN_models drv dsn s, ?_⟩
  unfold initDBWithDSN
  cases ho : drv.gormOpen s.trace dsn with
  | fail db err => simp
  | ok db =>
    cases hp : drv.sqlDB (s.trace ++ [.gormOpen dsn (.ok db)]) db with
    | fail err => simp [hp]
    | ok sqlDB =>
      by_cases hm : s.registeredModels = []
      · simp [hp, hm, autoMigrate, State.emit]
      · have hlen : 0 < s.registeredModels.length := List.length_pos.mpr hm
        cases ha : drv.autoMigrate
            (s.trace ++ [.gormOpen dsn (.ok db), .sqlDB db (.ok sqlDB),
              .setMaxIdleConns sqlDB 10, .setMaxOpenConns sqlDB 100,
              .setConnMaxLifetime sqlDB timeHour])
            (some db) s.registeredModels with
        | none => simp [hp, hm, autoMigrate, State.emit, hlen, OpenResult.db?, ha]
        | some e => simp [hp, hm, autoMigrate, State.emit, hlen, OpenResult.db?, ha]

/-- C5: the code at the failing input. `config.go` offers `Host` .. `Loc` as a second
way to fill `MysqlConfig`, yet `InitDB` on such a configuration (empty `DataSource`,
host `localhost`, user `root`, dbname `app`) returns `DataSource is empty`, makes no
open call and leaves the state untouched, whereas `InitDBWithViper` on a store holding
the same values opens
`root@tcp(localhost:3306)/app?charset=utf8mb4&parseTime=true&loc=Local`. -/
theorem InitDB_discrete_fields_rejected :
    (⟨"", "localhost", 0, "root", "", "app", "", true, ""⟩ : MysqlConfig).DataSource = ""
    ∧ (⟨"", "localhost", 0, "root", "", "app", "", true, ""⟩ : MysqlConfig).Host ≠ ""
    ∧ (⟨"", "localhost", 0, "root", "", "app", "", true, ""⟩ : MysqlConfig).User ≠ ""
    ∧ (⟨"", "localhost", 0, "root", "", "app", "", true, ""⟩ : MysqlConfig).DBName ≠ ""
    ∧ InitDB okDriver (some ⟨"", "localhost", 0, "root", "", "app", "", true, ""⟩)
        State.initial
      = (State.initial, some "DataSource is empty")
    ∧ RejectedAtValidation State.initial
        (InitDB okDriver (some ⟨"", "localhost", 0, "root", "", "app", "", true, ""⟩)
          State.initial)
    ∧ (InitDB okDriver (some ⟨"", "localhost", 0, "root", "", "app", "", true, ""⟩)
        State.initial).1.trace.filter Event.isOpen = []
    ∧ (InitDBWithViper okDriver (storeOf "localhost" 0 "root" "" "app" "" true "")
        State.initial).2 = none
    ∧ (InitDBWithViper okDriver (storeOf "localhost" 0 "root" "" "app" "" true "")
        State.initial).1.trace.filter Event.isOpen
      = [Event.gormOpen
          "root@tcp(localhost:3306)/app?charset=utf8mb4&parseTime=true&loc=Local" (.ok 7)] := by
  decide

/-- C8: `autoMigrate` calls the migrator exactly when a model is registered; with
none it returns success and changes nothing; otherwise it makes one call, on `DB`
with the whole list in order, and returns what that call returned; the
registered-model list and `DB` are unchanged in every case. -/
theorem autoMigrate_contract (drv : Driver) (s : State) :
    (autoMigrate drv s).2
      = (if s.registeredModels = [] then none
         else drv.autoMigrate s.trace s.DB s.registeredModels)
    ∧ (autoMigrate drv s).1.trace.filter Event.isMigrate
      = s.trace.filter Event.isMigrate
        ++ (if s.registeredModels = [] then []
            else [Event.autoMigrate s.DB s.registeredModels
                    (drv.autoMigrate s.trace s.DB s.registeredModels)])
    ∧ s.trace <+: (autoMigrate drv s).1.trace
    ∧ (s.registeredModels = [] → autoMigrate drv s = (s, none))
    ∧ (autoMigrate drv s).1.registeredModels = s.registeredModels
    ∧ (autoMigrate drv s).1.DB = s.DB := by
  refine ⟨?_, ?_, autoMigrate_trace drv s, ?_, autoMigrate_models drv s, autoMigrate_DB drv s⟩
  · by_cases hm : s.registeredModels = []
    · simp [autoMigrate, hm]
    · have hlen : 0 < s.registeredModels.length := List.length_pos.mpr hm
      cases ha : drv.autoMigrate s.trace s.DB s.registeredModels <;>
        simp [autoMigrate, hm, hlen, ha]
  · by_cases hm : s.registeredModels = []
    · simp [autoMigrate, hm]
    · have hlen : 0 < s.registeredModels.length := List.length_pos.mpr hm
      cases ha : drv.autoMigrate s.trace s.DB s.registeredModels <;>
        simp [autoMigrate, hm, hlen, ha, State.emit, List.filter_append, Event.isMigrate]
  · intro hm
    simp [autoMigrate, hm]

/-- C9 as stated fails: after registering a model and a call of `InitDBWithDSN` that
returned an error because migration failed, no call has returned success, yet
`GetDB` returns the handle that the failed call left in `DB`. -/
theorem GetDB_after_failed_init_counterexample :
    (runCalls migrateFailDriver [.register [5], .fromDSN "root@tcp(db:3306)/app"]
        State.initial).2 = false
    ∧ (InitDBWithDSN migrateFailDriver "root@tcp(db:3306)/app"
        (RegisterModels [5] State.initial)).2 = some "自动迁移数据库表失败: Error 1050"
    ∧ (GetDB migrateFailDriver
        (runCalls migrateFailDriver [.register [5], .fromDSN "root@tcp(db:3306)/app"]
          State.initial).1).2 = .handle 7 := by
  decide

/-- C9 amended: in every state reached from the initial state by calls of
`RegisterModels`, `InitDB`, `InitDBWithDSN` and `InitDBWithViper` in none of which the
open call handed back a handle, `GetDB` is fatal; and in any state `GetDB` returns a
handle only if one is stored and both the pool access and the ping succeed, and then
it returns the stored handle. -/
theorem GetDB_fatal_without_handle (drv : Driver) (calls : List Call)
    (hopen : ∀ e ∈ (runCalls drv calls State.initial).1.trace, e.opened? = none) :
    GetDB drv (runCalls drv calls State.initial).1
        = ((runCalls drv calls State.initial).1,
            .fatal "数据库未初始化，请先调用InitDB或相关初始化函数")
    ∧ (runCalls drv calls State.initial).2 = false
    ∧ ∀ (s : State) (db : Handle), (GetDB drv s).2 = .handle db →
        s.DB = some db ∧ ∃ sqlDB, drv.sqlDB s.trace db = .ok sqlDB
          ∧ drv.ping (s.trace ++ [.sqlDB db (.ok sqlDB)]) sqlDB = none := by
  exact ⟨GetDB_nil drv _ (runCalls_DB_none drv calls _ rfl hopen),
    runCalls_fails drv calls _ hopen, fun s db h => GetDB_handle drv s db h⟩

/-- C9 amended, at a run whose calls are all rejected or fail to open: two models are
registered, `InitDB` gets nil, `InitDBWithDSN` gets the empty string and then a
descriptor the driver cannot open, and `InitDBWithViper` reads an empty store. -/
theorem GetDB_fatal_without_handle_witness :
    (∀ e ∈ (runCalls downDriver
        [.register [1, 2], .fromConfig none, .fromDSN "", .fromDSN "root@tcp(db:3306)/app",
          .fromViper (storeOf "" 0 "" "" "" "" false "")] State.initial).1.trace,
        e.opened? = none)
    ∧ (GetDB downDriver (runCalls downDriver
        [.register [1, 2], .fromConfig none, .fromDSN "", .fromDSN "root@tcp(db:3306)/app",
          .fromViper (storeOf "" 0 "" "" "" "" false "")] State.initial).1).2
      = .fatal "数据库未初始化，请先调用InitDB或相关初始化函数" :=
  ⟨by decide,
    congrArg Prod.snd (GetDB_fatal_without_handle downDriver
      [.register [1, 2], .fromConfig none, .fromDSN "", .fromDSN "root@tcp(db:3306)/app",
        .fromViper (storeOf "" 0 "" "" "" "" false "")] (by decide)).1⟩

/-- C10: every validation failure leaves the whole state, the history of driver
calls included, as it was: `InitDB` on nil or on an empty `DataSource`,
`InitDBWithDSN` on the empty string, and `InitDBWithViper` when `buildDSNFromViper`
returns an error each return an error and the unchanged state. -/
theorem validation_failure_no_effect (drv : Driver) (s : State) :
    InitDB drv none s = (s, some "MysqlConfig is nil")
    ∧ (∀ config : MysqlConfig, config.DataSource = "" →
        InitDB drv (some config) s = (s, some "DataSource is empty"))
    ∧ InitDB drv (some ⟨"", "", 0, "", "", "", "", false, ""⟩) s
        = (s, some "DataSource is empty")
    ∧ InitDBWithDSN drv "" s = (s, some "DSN is empty")
    ∧ (∀ (viper : Viper) (err : String), (buildDSNFromViper viper).2 = some err →
        InitDBWithViper drv viper s = (s, some ("构建DSN失败: " ++ err))) := by
  have hcfg : ∀ config : MysqlConfig, config.DataSource = "" →
      InitDB drv (some config) s = (s, some "DataSource is empty") := by
    intro config h
    simp only [InitDB, h, if_true]
    congr 2
  refine ⟨?_, hcfg, hcfg _ rfl, ?_, ?_⟩
  · simp only [InitDB]
    congr 2
  · simp only [InitDBWithDSN, if_true]
    congr 2
  · intro viper err h
    cases hb : buildDSNFromViper viper with
    | mk dsn e =>
      rw [hb] at h
      simp only at h
      subst h
      simp only [InitDBWithViper, hb, Sprintf_build_error]

end DBConnector
